import Mathlib

/-!
Verification of the training-loop logic of `example_01_transformer_training.ipynb`
(repository `reproTransformers`).

The notebook is glue code around an ML framework: a training `while` loop with
step counting, loss normalization, a guarded learning-rate-scheduler step,
iterator-exhaustion recovery, periodic evaluation, and step-named checkpoints.
This file gives a shallow embedding of that loop logic and proves the spec's
claims about it.  Tensor arithmetic performed by the framework (forward pass,
autograd) is abstracted: per-token cross-entropy values are taken as arbitrary
rationals, since the claims are about how the notebook aggregates and
normalizes them, not about their numeric content.
-/

namespace ReproTransformers

/-! ## Configuration constants

From the notebook's training-config cell. -/

def MAX_SEQ_LEN : Nat := 256
def VOCAB_SIZE : Nat := 16000
def BATCH_SIZE : Nat := 16
def WARM_STEPS : Nat := 5000
def COOL_STEPS : Nat := 195000
def MAX_STEPS : Nat := 200000
def EVAL_EVERY : Nat := 25000
def EVAL_STEPS : Nat := 1000
def LOSS_WIN : Nat := 32
def DEMO_JUST_ONE_ITRE : Bool := true

/-! ## Loss computation (criterion and normalization)

The notebook sets
`criterion = torch.nn.CrossEntropyLoss(ignore_index=0, reduction="sum")`
and in both the training step and the evaluation loop computes
`loss = criterion(y_pred.transpose(1, 2), y_true); loss /= torch.sum(y_lens)`.

An example's target row is embedded as a list of pairs `(tokenId, ce)`: the
target-label id at that position together with the per-token cross-entropy
value the framework would produce there.  A batch pairs each row with its
valid target length `y_len`. -/

/-- A target row: per position, the target-label token id and the per-token
cross-entropy value at that position. -/
abbrev TargetRow := List (Nat × ℚ)

/-- A batch as seen by the loss code: each example carries its (padded) target
row and its valid target length `y_len`. -/
abbrev LossBatch := List (TargetRow × Nat)

/-- `CrossEntropyLoss(ignore_index=0, reduction="sum")` on one row: the sum of
per-token cross-entropy over the positions whose target id is not the ignore
index 0. -/
def criterionRow (row : TargetRow) : ℚ :=
  ((row.filter (fun p => p.1 ≠ 0)).map Prod.snd).sum

/-- The criterion over the whole batch: `reduction="sum"` adds every example's
row sum. -/
def criterionSum (b : LossBatch) : ℚ :=
  (b.map (fun e => criterionRow e.1)).sum

/-- `torch.sum(y_lens)`: the total count of valid target tokens in the batch,
as the sum of the per-example target lengths. -/
def totalTargetLen (b : LossBatch) : Nat :=
  (b.map Prod.snd).sum

/-- The normalized batch loss as both the training step and the evaluation
loop compute it: the summed criterion divided by `torch.sum(y_lens)`.  The
division is performed unconditionally in the notebook; real division is
undefined at denominator 0 (in torch floating point it yields NaN/inf), so the
embedding returns `none` exactly when the denominator is zero. -/
def batchLoss (b : LossBatch) : Option ℚ :=
  if totalTargetLen b = 0 then none
  else some (criterionSum b / (totalTargetLen b : ℚ))

/-- A row satisfies the padding discipline when the first `len` positions hold
real (non-zero) token ids and every later position holds the padding id 0. -/
def PaddedRow (row : TargetRow) (len : Nat) : Prop :=
  (∀ p ∈ row.take len, p.1 ≠ 0) ∧ (∀ p ∈ row.drop len, p.1 = 0)

instance (row : TargetRow) (len : Nat) : Decidable (PaddedRow row len) := by
  unfold PaddedRow
  infer_instance

/-- The loss the spec describes: the sum, over every example, of the per-token
cross-entropy over the first `y_len` (non-padding) positions, divided by the
total count of valid target tokens. -/
def specBatchLoss (b : LossBatch) : Option ℚ :=
  if totalTargetLen b = 0 then none
  else some ((b.map (fun e => ((e.1.take e.2).map Prod.snd).sum)).sum
              / (totalTargetLen b : ℚ))

/-! ## Learning-rate scheduler and its step guard

The notebook builds
`scheduler = torch.optim.lr_scheduler.OneCycleLR(optimizer, max_lr=MAX_LR,
total_steps=WARM_STEPS+COOL_STEPS, pct_start=WARM_STEPS/(WARM_STEPS+COOL_STEPS))`.
`OneCycleLR.step()` advances an internal step counter and raises a
`ValueError` when the counter passes `total_steps`.  The training loop guards
the call:

```
if global_step < (WARM_STEPS + COOL_STEPS):
    try:
        scheduler.step()
    except:
        pass
```
-/

/-- The scheduler state the claims depend on: its configured `total_steps`
and the number of completed `step()` calls. -/
structure Scheduler where
  totalSteps : Nat
  stepCount : Nat
deriving DecidableEq

/-- `OneCycleLR.step()`: advances the step counter, raising an error
(`.error ()`) when the new count would pass `total_steps`. -/
def schedStep (s : Scheduler) : Except Unit Scheduler :=
  if s.totalSteps < s.stepCount + 1 then Except.error ()
  else Except.ok { s with stepCount := s.stepCount + 1 }

/-- `try: scheduler.step() except: pass` — a raising step leaves the
scheduler unchanged and propagates nothing. -/
def schedStepCaught (s : Scheduler) : Scheduler :=
  match schedStep s with
  | Except.ok t => t
  | Except.error _ => s

/-- The loop's guarded scheduler step at global step `g`: the scheduler is
stepped (with the bare except) only when `g < WARM_STEPS + COOL_STEPS`,
otherwise nothing happens. -/
def guardedSchedStep (g : Nat) (s : Scheduler) : Scheduler :=
  if g < WARM_STEPS + COOL_STEPS then schedStepCaught s else s

/-- The scheduler as constructed in the notebook:
`total_steps = WARM_STEPS + COOL_STEPS`, no steps taken yet. -/
def schedInit : Scheduler :=
  { totalSteps := WARM_STEPS + COOL_STEPS, stepCount := 0 }

/-- Running the training loop's scheduler logic for `n` training steps:
the scheduler state after step `n`, paired with the number of times
`scheduler.step()` was actually invoked.  At training step `g` the counter
`global_step` has already been incremented to `g`, so the invocation happens
iff `g < WARM_STEPS + COOL_STEPS`. -/
def schedRun : Nat → Scheduler × Nat
  | 0 => (schedInit, 0)
  | n + 1 =>
    let r := schedRun n
    (guardedSchedStep (n + 1) r.1,
     if n + 1 < WARM_STEPS + COOL_STEPS then r.2 + 1 else r.2)

/-! ## Training iterator and epoch rollover

```
try:
    batch = next(train_iterator)
except StopIteration:
    epoch += 1
    train_iterator = iter(train_dataloader)
    batch = next(train_iterator)
```
-/

/-- The loop bookkeeping the iterator code touches: the global step counter,
the epoch counter, and the batches remaining in `train_iterator`. -/
structure LoopState (B : Type) where
  globalStep : Nat
  epoch : Nat
  remaining : List B
deriving DecidableEq

/-- The batch-fetch step of the loop body, over the dataloader's batch list
`data`.  A non-empty iterator yields its next batch.  An exhausted iterator
raises `StopIteration`, which the handler recovers from: the epoch counter
increments, the iterator is rebuilt from `data`, and the next batch is drawn
from the rebuilt iterator.  `none` models an uncaught `StopIteration` from
the `next` call inside the handler (only possible when `data` is empty). -/
def fetchBatch {B : Type} (data : List B) (s : LoopState B) :
    Option (B × LoopState B) :=
  match s.remaining with
  | b :: rest => some (b, { s with remaining := rest })
  | [] =>
    match data with
    | b :: rest =>
      some (b, { s with epoch := s.epoch + 1, remaining := rest })
    | [] => none

/-! ## Batch collation -/

/-- Modelled from the spec: the collate function `pad_to_seq_len` imported
from `mytransformers.data` is not part of the repository sources under
`src/`; only the notebook that calls it is.  Per the spec ("pads
variable-length sequences to a fixed maximum length, producing fixed-shape
tensors plus per-example valid lengths"; "Padding truncates to a configured
maximum length"; "fixed-shape tensor of shape (batch_size, max_len) per
field, zero-padded"), a sequence is truncated to `max_seq_len` and
zero-padded up to exactly `max_seq_len`. -/
def pad_to_seq_len (max_seq_len : Nat) (xs : List Nat) : List Nat :=
  xs.take max_seq_len ++ List.replicate (max_seq_len - xs.length) 0

/-- One padded field of a collated batch: every example's sequence padded to
`max_seq_len`. -/
def collateField (max_seq_len : Nat) (rows : List (List Nat)) : List (List Nat) :=
  rows.map (pad_to_seq_len max_seq_len)

/-! ## Evaluation loop

```
for idx, batch in tqdm.tqdm(enumerate(valid_dataloader), total=EVAL_STEPS):
    ...
    eval_losses.append(loss.item())
    if idx >= EVAL_STEPS:
        break
```
followed by `np.mean(eval_losses)`.  Note the `break` test runs after the
append, so the batch at index `EVAL_STEPS` is still processed. -/

/-- The `eval_losses` list accumulated by the evaluation loop, starting from
enumeration index `idx`: each remaining batch contributes its loss, and the
loop breaks after processing a batch whose index is at least `EVAL_STEPS`. -/
def evalLossList {α : Type} (lossOf : α → ℚ) : List α → Nat → List ℚ
  | [], _ => []
  | b :: rest, idx =>
    lossOf b :: (if EVAL_STEPS ≤ idx then [] else evalLossList lossOf rest (idx + 1))

/-- The reported validation loss: `np.mean(eval_losses)` over the batches the
evaluation loop processed. -/
def reportedEvalLoss {α : Type} (lossOf : α → ℚ) (bs : List α) : ℚ :=
  (evalLossList lossOf bs 0).sum / ((evalLossList lossOf bs 0).length : ℚ)

/-! ## Checkpoint file names

`checkpoint_file = "/mnt/data/checkpoints/translation_en_nl/checkpoint_v{}.pt".format(VOCAB_SIZE)`
and each save writes to
`checkpoint_file.replace(".pt", "-{:08d}.pt".format(global_step))`,
i.e. a fixed prefix, a dash, the step count zero-padded to at least eight
decimal digits, and the `.pt` extension.  File names are embedded as lists
of character codes. -/

/-- The decimal digits of `n`, little-endian, right-padded with zeros to at
least eight digits — the digit content of Python's `"{:08d}".format(n)`
read least-significant first. -/
def padDigitsLE (n : Nat) : List Nat :=
  Nat.digits 10 n ++ List.replicate (8 - (Nat.digits 10 n).length) 0

/-- The zero-padded step field of a checkpoint file name, as character
codes: the padded digits in display (big-endian) order, each shifted to its
ASCII digit code. -/
def stepField (n : Nat) : List Nat :=
  (padDigitsLE n).reverse.map (fun d => d + 48)

/-- The fixed part of the checkpoint path before the step field, as
character codes. -/
def checkpointBase : List Nat :=
  ("/mnt/data/checkpoints/translation_en_nl/checkpoint_v16000".data.map Char.toNat)

/-- The full checkpoint file name for global step `n`:
`checkpoint_v16000-%08d.pt` with the step count spliced in (45 is the dash;
46, 112, 116 are `.pt`). -/
def checkpointName (n : Nat) : List Nat :=
  checkpointBase ++ 45 :: stepField n ++ [46, 112, 116]

/-! ## Training loop step/evaluation/checkpoint accounting

```
while global_step < MAX_STEPS:
    global_step += 1
    ...
    if global_step % EVAL_EVERY == 0:
        ... evaluate, print eval loss, save checkpoint ...
        if DEMO_JUST_ONE_ITRE:
            break
```
-/

/-- The training `while` loop, counting only steps, evaluation printouts and
checkpoint saves.  `fuel` is the number of loop iterations still allowed by
`global_step < maxSteps` (the counter increments once per iteration, so
starting with `fuel = maxSteps` at `g = 0` makes the recursion exit exactly
when `g` reaches `maxSteps`).  Returns
(final global step, evaluation printouts, checkpoints written). -/
def trainLoopGo (evalEvery : Nat) (demo : Bool) :
    Nat → Nat → Nat → Nat → Nat × Nat × Nat
  | 0, g, ev, ck => (g, ev, ck)
  | fuel + 1, g, ev, ck =>
    let gNext := g + 1
    if gNext % evalEvery = 0 then
      if demo then (gNext, ev + 1, ck + 1)
      else trainLoopGo evalEvery demo fuel gNext (ev + 1) (ck + 1)
    else trainLoopGo evalEvery demo fuel gNext ev ck

/-- A full run of the training loop with budget `maxSteps`, evaluation
interval `evalEvery` and the demo-break flag `demo`. -/
def runTrainLoop (maxSteps evalEvery : Nat) (demo : Bool) : Nat × Nat × Nat :=
  trainLoopGo evalEvery demo maxSteps 0 0 0

/-! ## Exception flow of one training step

The body of the loop protects exactly two operations: the iterator fetch
(`except StopIteration`) and the scheduler step (bare `except:`).  Every
other operation — moving tensors, the forward pass, `loss.backward()`,
gradient clipping, `optimizer.step()`, `optimizer.zero_grad()` — runs
unprotected, so an exception there escapes the loop. -/

/-- Exceptions a training step can raise: `StopIteration`, the `ValueError`
`OneCycleLR` raises when stepped past its horizon, or any other runtime
exception (tagged by a code so distinct exceptions stay distinct). -/
inductive PyExc where
  | stopIteration : PyExc
  | schedHorizon : PyExc
  | other : Nat → PyExc
deriving DecidableEq

/-- Which exception, if any, each operation of one training-step body raises.
`refetchExc` is the exception of the `next` call inside the `StopIteration`
handler (only reached when `fetchExc` is `StopIteration`). -/
structure StepEffects where
  fetchExc : Option PyExc
  refetchExc : Option PyExc
  forwardExc : Option PyExc
  backwardExc : Option PyExc
  clipExc : Option PyExc
  optimExc : Option PyExc
  schedExc : Option PyExc
  zeroGradExc : Option PyExc
deriving DecidableEq

/-- Exception flow after the batch fetch succeeded: forward, backward, clip
and optimizer exceptions propagate; the scheduler step is wrapped in a bare
`except: pass`, so `schedExc` is swallowed whatever it is (and when the
step-count guard fails the scheduler is not called at all); then
`zero_grad` runs unprotected. -/
def postFetchExc (fx : StepEffects) : Option PyExc :=
  match fx.forwardExc with
  | some e => some e
  | none =>
    match fx.backwardExc with
    | some e => some e
    | none =>
      match fx.clipExc with
      | some e => some e
      | none =>
        match fx.optimExc with
        | some e => some e
        | none =>
          match fx.zeroGradExc with
          | some e => some e
          | none => none

/-- The exception escaping one training-step body, if any: a
`StopIteration` from the first fetch is handled (and the handler's own fetch
runs unprotected), any other fetch exception propagates, and the rest of the
body behaves as `postFetchExc`. -/
def trainStepExc (fx : StepEffects) : Option PyExc :=
  match fx.fetchExc with
  | some PyExc.stopIteration =>
    match fx.refetchExc with
    | some e => some e
    | none => postFetchExc fx
  | some e => some e
  | none => postFetchExc fx

/-- The sites of a training-step body at which an exception can arise. -/
inductive StepSite where
  | fetch : StepSite
  | refetch : StepSite
  | forward : StepSite
  | backward : StepSite
  | clip : StepSite
  | optim : StepSite
  | sched : StepSite
  | zeroGrad : StepSite
deriving DecidableEq

/-- A step in which exactly one operation raises: exception `e` at `site`
(for `refetch`, the first fetch raises `StopIteration` so that the handler
runs and its own fetch raises `e`). -/
def raiseOnlyAt (site : StepSite) (e : PyExc) : StepEffects where
  fetchExc :=
    if site = StepSite.fetch then some e
    else if site = StepSite.refetch then some PyExc.stopIteration else none
  refetchExc := if site = StepSite.refetch then some e else none
  forwardExc := if site = StepSite.forward then some e else none
  backwardExc := if site = StepSite.backward then some e else none
  clipExc := if site = StepSite.clip then some e else none
  optimExc := if site = StepSite.optim then some e else none
  schedExc := if site = StepSite.sched then some e else none
  zeroGradExc := if site = StepSite.zeroGrad then some e else none

/-! # Theorems -/

/-- Helper: under the padding discipline the ignore-index criterion sums
exactly the first `len` per-token losses. -/
theorem criterionRow_of_padded (row : TargetRow) (len : Nat)
    (h : PaddedRow row len) :
    criterionRow row = ((row.take len).map Prod.snd).sum := by
  obtain ⟨htake, hdrop⟩ := h
  unfold criterionRow
  have hsplit : row = row.take len ++ row.drop len := (List.take_append_drop len row).symm
  rw [hsplit, List.filter_append]
  have h1 : (row.take len).filter (fun p => p.1 ≠ 0) = row.take len := by
    apply List.filter_eq_self.mpr
    intro p hp
    simpa using htake p hp
  have h2 : (row.drop len).filter (fun p => p.1 ≠ 0) = [] := by
    apply List.filter_eq_nil_iff.mpr
    intro p hp
    simpa using hdrop p hp
  rw [h1, h2, List.append_nil, ← hsplit]

/-- C1: for every batch (training and evaluation use the same two lines of
loss code), provided the rows obey the padding discipline — real tokens on
the first `y_len` positions, padding id 0 after — the computed loss is the
sum of per-token cross-entropy over the non-padding target positions divided
by the total count of valid target tokens (the sum of the per-example target
lengths), exactly as the spec states it; the denominator is `totalTargetLen`,
not the batch size. -/
theorem c1_loss_normalized_by_valid_tokens (b : LossBatch)
    (h : ∀ e ∈ b, PaddedRow e.1 e.2) :
    batchLoss b = specBatchLoss b := by
  unfold batchLoss specBatchLoss
  have hnum : criterionSum b
      = (b.map (fun e => ((e.1.take e.2).map Prod.snd).sum)).sum := by
    unfold criterionSum
    congr 1
    apply List.map_congr_left
    intro e he
    exact criterionRow_of_padded e.1 e.2 (h e he)
  rw [hnum]

/-- C1 witness: a concrete two-example batch with padded rows, on which the
loss computed by the code equals the spec's formula. -/
theorem c1_loss_normalized_by_valid_tokens_witness :
    (∀ e ∈ ([([(5, 2), (7, 4), (0, 9)], 2), ([(3, 1), (0, 8)], 1)] : LossBatch),
        PaddedRow e.1 e.2) ∧
    batchLoss ([([(5, 2), (7, 4), (0, 9)], 2), ([(3, 1), (0, 8)], 1)] : LossBatch)
      = specBatchLoss ([([(5, 2), (7, 4), (0, 9)], 2), ([(3, 1), (0, 8)], 1)] : LossBatch) :=
  ⟨by decide, c1_loss_normalized_by_valid_tokens _ (by decide)⟩

/-- C2 counterexample: the claim says the division by the valid-token count
is guarded against division by zero, i.e. the normalized loss is defined for
every batch.  It is not: on a concrete batch whose only example is all
padding (valid length 0), the total valid-token count is 0 and the
unconditional `loss /= torch.sum(y_lens)` divides by zero, so the loss is
undefined. -/
theorem c2_division_guard_counterexample :
    totalTargetLen ([([(0, 1)], 0)] : LossBatch) = 0 ∧
    batchLoss ([([(0, 1)], 0)] : LossBatch) = none := by
  constructor
  · rfl
  · rfl

/-- C2 amended: the division is not guarded — for every batch whose total
count of valid target tokens is zero, the normalization step divides by zero
and the loss is undefined (NaN/inf in floating point); no explicitly defined
behavior exists for this case. -/
theorem c2_division_unguarded (b : LossBatch)
    (h : totalTargetLen b = 0) :
    batchLoss b = none := by
  unfold batchLoss
  simp [h]

/-- C2 amended witness: the all-padding one-example batch has zero valid
tokens and an undefined normalized loss. -/
theorem c2_division_unguarded_witness :
    totalTargetLen ([([(0, 1)], 0)] : LossBatch) = 0 ∧
    batchLoss ([([(0, 1)], 0)] : LossBatch) = none :=
  ⟨by decide, c2_division_unguarded _ (by decide)⟩

/-- Helper: closed form of the scheduler run.  After `n` training steps the
scheduler has been invoked, and has advanced, exactly
`min n (WARM_STEPS + COOL_STEPS - 1)` times: the guard compares the
already-incremented global step against the bound, so step
`WARM_STEPS + COOL_STEPS` itself no longer steps the scheduler. -/
theorem schedRun_closed (n : Nat) :
    schedRun n
      = ({ totalSteps := WARM_STEPS + COOL_STEPS,
           stepCount := min n (WARM_STEPS + COOL_STEPS - 1) },
         min n (WARM_STEPS + COOL_STEPS - 1)) := by
  induction n with
  | zero => simp [schedRun, schedInit]
  | succ n ih =>
    rw [schedRun, ih]
    by_cases h : n + 1 < WARM_STEPS + COOL_STEPS
    · have hm : min n (WARM_STEPS + COOL_STEPS - 1) = n := by omega
      have hm1 : min (n + 1) (WARM_STEPS + COOL_STEPS - 1) = n + 1 := by omega
      have hlt : ¬ (WARM_STEPS + COOL_STEPS < n + 1) := by omega
      simp [guardedSchedStep, schedStepCaught, schedStep, h, hlt, hm, hm1]
    · have hm1 : min (n + 1) (WARM_STEPS + COOL_STEPS - 1)
          = min n (WARM_STEPS + COOL_STEPS - 1) := by omega
      simp [guardedSchedStep, h, hm1]

/-- C3: the scheduler's step count never exceeds its configured total
schedule length (`WARM_STEPS + COOL_STEPS`); the loop's scheduler step at a
global step at or past that bound leaves the scheduler unchanged (and, being
a total function, raises nothing); and even a direct `scheduler.step()` on a
saturated scheduler is swallowed by the bare except into a no-op — so
training continues past the nominal schedule length without further
learning-rate updates. -/
theorem c3_sched_step_bounded_and_noop (n g : Nat) (s : Scheduler)
    (hg : WARM_STEPS + COOL_STEPS ≤ g) (hs : s.totalSteps ≤ s.stepCount) :
    (schedRun n).1.stepCount ≤ (schedRun n).1.totalSteps
    ∧ guardedSchedStep g s = s
    ∧ schedStepCaught s = s := by
  refine ⟨?_, ?_, ?_⟩
  · rw [schedRun_closed]
    simp
  · unfold guardedSchedStep
    have : ¬ (g < WARM_STEPS + COOL_STEPS) := by omega
    simp [this]
  · unfold schedStepCaught schedStep
    have : s.totalSteps < s.stepCount + 1 := by omega
    simp [this]

/-- C3 witness: at run length 3, global step 200000 and a saturated
scheduler, the bound holds and both step attempts are no-ops. -/
theorem c3_sched_step_bounded_and_noop_witness :
    (WARM_STEPS + COOL_STEPS ≤ 200000
      ∧ (⟨4, 4⟩ : Scheduler).totalSteps ≤ (⟨4, 4⟩ : Scheduler).stepCount)
    ∧ ((schedRun 3).1.stepCount ≤ (schedRun 3).1.totalSteps
       ∧ guardedSchedStep 200000 ⟨4, 4⟩ = ⟨4, 4⟩
       ∧ schedStepCaught ⟨4, 4⟩ = ⟨4, 4⟩) :=
  ⟨⟨by decide, by decide⟩,
   c3_sched_step_bounded_and_noop 3 200000 ⟨4, 4⟩ (by decide) (by decide)⟩

/-- C10: over a run of `n` training steps the scheduler is invoked exactly
`min n (WARM_STEPS + COOL_STEPS - 1)` times; a step whose incremented global
counter has reached the bound invokes it not at all; and over the full
`MAX_STEPS` budget it is invoked `WARM_STEPS + COOL_STEPS - 1` times —
strictly fewer than the scheduler's configured `total_steps`, so the final
scheduled step is never taken even though the budget equals the schedule
length. -/
theorem c10_sched_invocations_one_short (n m : Nat)
    (hm : WARM_STEPS + COOL_STEPS ≤ m + 1) :
    (schedRun n).2 = min n (WARM_STEPS + COOL_STEPS - 1)
    ∧ (schedRun (m + 1)).2 = (schedRun m).2
    ∧ (schedRun MAX_STEPS).2 = WARM_STEPS + COOL_STEPS - 1
    ∧ (schedRun MAX_STEPS).2 < schedInit.totalSteps := by
  refine ⟨?_, ?_, ?_, ?_⟩
  · rw [schedRun_closed]
  · rw [schedRun_closed, schedRun_closed]
    simp
    omega
  · rw [schedRun_closed]
    decide
  · rw [schedRun_closed]
    decide

/-- C10 witness: at run length 5 and the step just past the schedule bound,
the invocation counts are as stated. -/
theorem c10_sched_invocations_one_short_witness :
    (WARM_STEPS + COOL_STEPS ≤ 199999 + 1)
    ∧ ((schedRun 5).2 = min 5 (WARM_STEPS + COOL_STEPS - 1)
       ∧ (schedRun (199999 + 1)).2 = (schedRun 199999).2
       ∧ (schedRun MAX_STEPS).2 = WARM_STEPS + COOL_STEPS - 1
       ∧ (schedRun MAX_STEPS).2 < schedInit.totalSteps) :=
  ⟨by decide, c10_sched_invocations_one_short 5 199999 (by decide)⟩

/-- C4: whenever the training iterator is exhausted mid-run (over a
non-empty dataloader), the fetch recovers: it returns the first batch of the
reconstructed iterator, the epoch counter increments by exactly one, the
global step counter is unchanged by the recovery, and no `StopIteration`
escapes. -/
theorem c4_iterator_exhaustion_recovers (B : Type) (data : List B)
    (s : LoopState B) (hdata : data ≠ []) (hexh : s.remaining = []) :
    ∃ b s', fetchBatch data s = some (b, s')
      ∧ data.head? = some b
      ∧ s'.epoch = s.epoch + 1
      ∧ s'.globalStep = s.globalStep
      ∧ s'.remaining = data.tail := by
  cases data with
  | nil => exact absurd rfl hdata
  | cons b rest =>
    refine ⟨b, { s with epoch := s.epoch + 1, remaining := rest }, ?_, rfl, rfl, rfl, rfl⟩
    unfold fetchBatch
    rw [hexh]

/-- C4 witness: a concrete exhausted state over a two-batch dataloader. -/
theorem c4_iterator_exhaustion_recovers_witness :
    (([7, 8] : List Nat) ≠ []
      ∧ ({ globalStep := 5, epoch := 2, remaining := [] } : LoopState Nat).remaining = [])
    ∧ (∃ b s', fetchBatch [7, 8] ({ globalStep := 5, epoch := 2, remaining := [] } : LoopState Nat)
          = some (b, s')
        ∧ ([7, 8] : List Nat).head? = some b
        ∧ s'.epoch = ({ globalStep := 5, epoch := 2, remaining := [] } : LoopState Nat).epoch + 1
        ∧ s'.globalStep = ({ globalStep := 5, epoch := 2, remaining := [] } : LoopState Nat).globalStep
        ∧ s'.remaining = ([7, 8] : List Nat).tail) :=
  ⟨⟨by decide, by decide⟩,
   c4_iterator_exhaustion_recovers Nat [7, 8] _ (by decide) (by decide)⟩

/-- Helper: a padded sequence has length exactly `max_seq_len`. -/
theorem pad_to_seq_len_length (max_seq_len : Nat) (xs : List Nat) :
    (pad_to_seq_len max_seq_len xs).length = max_seq_len := by
  unfold pad_to_seq_len
  simp
  omega

/-- C5: every batch the collator produces has shape exactly
(batch size, configured maximum length): one padded row per input example,
every row of length exactly `max_seq_len`, regardless of the input sentence
lengths. -/
theorem c5_collated_shape (max_seq_len : Nat) (rows : List (List Nat)) :
    (collateField max_seq_len rows).map List.length
      = List.replicate rows.length max_seq_len := by
  unfold collateField
  induction rows with
  | nil => rfl
  | cons r rest ih =>
    simp only [List.map_cons, pad_to_seq_len_length]
    rw [ih, List.length_cons, List.replicate_succ]

/-- Helper: the evaluation loop starting at enumeration index
`idx ≤ EVAL_STEPS` records one loss per batch until it breaks after the
batch at index `EVAL_STEPS`. -/
theorem evalLossList_length {α : Type} (lossOf : α → ℚ) :
    ∀ (bs : List α) (idx : Nat), idx ≤ EVAL_STEPS →
      (evalLossList lossOf bs idx).length = min bs.length (EVAL_STEPS + 1 - idx) := by
  intro bs
  induction bs with
  | nil =>
    intro idx _
    unfold evalLossList
    simp
  | cons b rest ih =>
    intro idx hidx
    unfold evalLossList
    by_cases h : EVAL_STEPS ≤ idx
    · have : idx = EVAL_STEPS := le_antisymm hidx h
      simp [h, this]
    · simp only [if_neg h, List.length_cons]
      rw [ih (idx + 1) (by omega)]
      omega

/-- C6 counterexample: the claim bounds the evaluation by at most
`EVAL_STEPS` validation batches, but the break test `if idx >= EVAL_STEPS`
runs only after the batch is processed, so a 1002-batch validation loader
contributes 1001 per-batch losses — more than `EVAL_STEPS = 1000`. -/
theorem c6_eval_steps_counterexample :
    (evalLossList (fun _ => (0 : ℚ)) (List.replicate 1002 ()) 0).length = 1001
    ∧ ¬ ((evalLossList (fun _ => (0 : ℚ)) (List.replicate 1002 ()) 0).length
          ≤ EVAL_STEPS) := by
  have h := evalLossList_length (fun _ => (0 : ℚ)) (List.replicate 1002 ()) 0 (by decide)
  rw [List.length_replicate] at h
  refine ⟨?_, ?_⟩
  · rw [h]; decide
  · rw [h]; decide

/-- C6 amended: each evaluation reports the average of the per-batch losses
over a bounded number of validation batches — exactly
`min (number of validation batches) (EVAL_STEPS + 1)` of them, hence at most
`EVAL_STEPS + 1` (not `EVAL_STEPS`: the break fires only after the batch at
index `EVAL_STEPS` is processed), and never more than that bound even over
an arbitrarily large validation set. -/
theorem c6_eval_bounded_batches {α : Type} (lossOf : α → ℚ) (bs : List α) :
    (evalLossList lossOf bs 0).length = min bs.length (EVAL_STEPS + 1)
    ∧ (evalLossList lossOf bs 0).length ≤ EVAL_STEPS + 1
    ∧ reportedEvalLoss lossOf bs
        = (evalLossList lossOf bs 0).sum / ((evalLossList lossOf bs 0).length : ℚ) := by
  have h := evalLossList_length lossOf bs 0 (by decide)
  refine ⟨by simpa using h, ?_, rfl⟩
  rw [h]
  omega

/-- Helper: interpreting a run of zero digits gives zero. -/
theorem ofDigits_replicate_zero (b k : Nat) :
    Nat.ofDigits b (List.replicate k 0) = 0 := by
  induction k with
  | zero => rfl
  | succ k ih => simp [List.replicate_succ, Nat.ofDigits_cons, ih]

/-- Helper: the zero-padded digit list still denotes its step count, so
padding loses no information. -/
theorem ofDigits_padDigitsLE (n : Nat) :
    Nat.ofDigits 10 (padDigitsLE n) = n := by
  unfold padDigitsLE
  rw [Nat.ofDigits_append, Nat.ofDigits_digits, ofDigits_replicate_zero]
  ring

/-- C7: checkpoint file names are the fixed prefix plus the zero-padded
global step count, and the naming is injective: checkpoints taken at
different step counts are written to files with different names, so no
checkpoint ever overwrites another. -/
theorem c7_checkpoint_names_never_collide (a b : Nat) (hab : a ≠ b) :
    checkpointName a ≠ checkpointName b := by
  intro h
  apply hab
  unfold checkpointName at h
  have h1 : checkpointBase ++ (45 : Nat) :: stepField a
      = checkpointBase ++ 45 :: stepField b := List.append_cancel_right h
  have h2 : (45 : Nat) :: stepField a = 45 :: stepField b :=
    List.append_cancel_left h1
  have h3 : stepField a = stepField b := by injection h2
  unfold stepField at h3
  have h4 : (padDigitsLE a).reverse = (padDigitsLE b).reverse := by
    exact (List.map_injective_iff.mpr (add_left_injective 48)) h3
  have h5 : padDigitsLE a = padDigitsLE b := List.reverse_injective h4
  have h6 := congrArg (Nat.ofDigits 10) h5
  rwa [ofDigits_padDigitsLE, ofDigits_padDigitsLE] at h6

/-- C7 witness: the checkpoints at steps 25000 and 50000 go to different
files. -/
theorem c7_checkpoint_names_never_collide_witness :
    (25000 : Nat) ≠ 50000 ∧ checkpointName 25000 ≠ checkpointName 50000 :=
  ⟨by decide, c7_checkpoint_names_never_collide 25000 50000 (by decide)⟩

/-- C8 counterexample: the claim says every runtime exception other than
iterator exhaustion and a past-horizon scheduler step propagates, but the
bare `except:` around `scheduler.step()` swallows *any* exception raised
there: a generic runtime exception raised inside the scheduler step — which
is neither `StopIteration` nor the past-horizon error — is caught and the
step completes. -/
theorem c8_uncaught_exceptions_counterexample :
    trainStepExc (raiseOnlyAt StepSite.sched (PyExc.other 0)) = none
    ∧ PyExc.other 0 ≠ PyExc.stopIteration
    ∧ PyExc.other 0 ≠ PyExc.schedHorizon := by decide

/-- C8 amended: during a training step, an exception raised at any site
other than the scheduler step propagates and halts the loop — a
non-`StopIteration` fetch exception, any exception from the handler's own
fetch, and any exception from the forward pass, backward pass, gradient
clipping, optimizer step or `zero_grad`; a `StopIteration` from the first
fetch is recovered; and any exception raised inside `scheduler.step()`
(not only the past-horizon error) is swallowed by its bare except. -/
theorem c8_exception_propagation (e : PyExc) (he : e ≠ PyExc.stopIteration) :
    trainStepExc (raiseOnlyAt StepSite.fetch e) = some e
    ∧ trainStepExc (raiseOnlyAt StepSite.fetch PyExc.stopIteration) = none
    ∧ trainStepExc (raiseOnlyAt StepSite.refetch e) = some e
    ∧ trainStepExc (raiseOnlyAt StepSite.forward e) = some e
    ∧ trainStepExc (raiseOnlyAt StepSite.backward e) = some e
    ∧ trainStepExc (raiseOnlyAt StepSite.clip e) = some e
    ∧ trainStepExc (raiseOnlyAt StepSite.optim e) = some e
    ∧ trainStepExc (raiseOnlyAt StepSite.zeroGrad e) = some e
    ∧ trainStepExc (raiseOnlyAt StepSite.sched e) = none := by
  cases e with
  | stopIteration => exact absurd rfl he
  | schedHorizon => exact ⟨rfl, rfl, rfl, rfl, rfl, rfl, rfl, rfl, rfl⟩
  | other c => exact ⟨rfl, rfl, rfl, rfl, rfl, rfl, rfl, rfl, rfl⟩

/-- C8 amended witness: a concrete non-`StopIteration` exception follows the
stated propagation pattern. -/
theorem c8_exception_propagation_witness :
    PyExc.other 3 ≠ PyExc.stopIteration
    ∧ (trainStepExc (raiseOnlyAt StepSite.fetch (PyExc.other 3)) = some (PyExc.other 3)
       ∧ trainStepExc (raiseOnlyAt StepSite.fetch PyExc.stopIteration) = none
       ∧ trainStepExc (raiseOnlyAt StepSite.refetch (PyExc.other 3)) = some (PyExc.other 3)
       ∧ trainStepExc (raiseOnlyAt StepSite.forward (PyExc.other 3)) = some (PyExc.other 3)
       ∧ trainStepExc (raiseOnlyAt StepSite.backward (PyExc.other 3)) = some (PyExc.other 3)
       ∧ trainStepExc (raiseOnlyAt StepSite.clip (PyExc.other 3)) = some (PyExc.other 3)
       ∧ trainStepExc (raiseOnlyAt StepSite.optim (PyExc.other 3)) = some (PyExc.other 3)
       ∧ trainStepExc (raiseOnlyAt StepSite.zeroGrad (PyExc.other 3)) = some (PyExc.other 3)
       ∧ trainStepExc (raiseOnlyAt StepSite.sched (PyExc.other 3)) = none) :=
  ⟨by decide, c8_exception_propagation (PyExc.other 3) (by decide)⟩

/-- C9: with a 2-step training budget (`MAX_STEPS = 2`), evaluation interval
1 (`EVAL_EVERY = 1`) and the notebook's `DEMO_JUST_ONE_ITRE = True`, the
loop terminates after its first step having printed exactly one evaluation
loss and written exactly one checkpoint (the demo flag breaks out of the
loop right after the first evaluate-and-checkpoint block). -/
theorem c9_two_step_demo_run :
    runTrainLoop 2 1 DEMO_JUST_ONE_ITRE = (1, 1, 1) := by decide

end ReproTransformers
